import Mathlib

/-!
Shallow embedding of `release_stats.py` (bitcoin-core-release-stats).

The script has five pieces, all embedded below from the source:
  * the `Github` client (`Github.request`, `Github.get_prs`, lines 15-40),
  * row normalization (`parse_pr`, lines 42-43) and the merged-PR filter
    (line 74),
  * the page-fetch loop of `main` (lines 60-64),
  * the per-release git statistics (lines 84-113), with the git subprocess
    calls modelled by an explicit commit-graph environment `Repo`,
  * the contributor comment tally (lines 115-132).

Python runtime errors (KeyError, IndexError, TypeError) are modelled with
`Except PyErr`; an uncaught error aborts the run, exactly as an uncaught
Python exception aborts `main`.
-/

/-- Python runtime exceptions that the embedded code paths can raise. -/
inductive PyErr where
  | keyError
  | indexError
  | typeError
  deriving DecidableEq

/-- A raw pull-request record as returned by the forge API, restricted to the
fields the script ever reads.  `user_login` stands for `pr['user']['login']`,
`base_ref` for `pr['base']['ref']`; `closed_at` and `merged_at` are nullable
timestamps. -/
structure PRRecord where
  number : Nat
  user_login : String
  state : String
  created_at : String
  closed_at : Option String
  merged_at : Option String
  base_ref : String
  deriving DecidableEq

/-- Result of `json.loads(resp.text)`: GitHub answers a list of PR records on
success and a JSON object (string-keyed dictionary) such as
`\x7b"message": "..."\x7d` on error responses. -/
inductive JsonVal where
  | jlist : List PRRecord → JsonVal
  | jobject : List (String × String) → JsonVal
  deriving DecidableEq

/-- An HTTP response: status code plus the value its text parses to. -/
structure Response where
  status : Nat
  body : JsonVal
  deriving DecidableEq

/-- The `Github` client object (lines 18-20): it only stores credentials. -/
structure Github where
  client_id : String
  client_secret : String
  deriving DecidableEq

/-- An outbound HTTP GET as built by `Github.request` (line 28):
`requests.get(uri, auth=(client_id, client_secret))`. -/
structure HttpGet where
  uri : String
  auth : String × String
  deriving DecidableEq

/-- Lines 22-28.  `request` defaults `options` to the empty list (lines 24-25)
and then never uses it: the URI is just the base joined with `req`, and the
only other argument passed to `requests.get` is the auth pair.  The query
options are dropped. -/
def Github.request (g : Github) (req : String) (options : Option (List String)) : HttpGet :=
  let _ := options.getD []
  { uri := "https://api.github.com/" ++ req, auth := (g.client_id, g.client_secret) }

/-- The GET that `get_prs` issues for a page (line 32): `request` is called
with the pulls path and the three query options. -/
def getPrsRequest (g : Github) (page : Nat) : HttpGet :=
  g.request "repos/bitcoin/bitcoin/pulls"
    (some ["state=closed", "per_page=100", "page=" ++ toString page])

/-- Index of the attempt whose response `resp` holds after the retry loop of
`get_prs` (lines 31-35): `for i in range(5)` breaks at the first 200, so the
final `resp` is the first 200 response, or attempt 4 if none succeeded.
`rs i` is the response to the i-th attempt. -/
def finalAttemptIdx (rs : Nat → Response) : Nat :=
  if (rs 0).status = 200 then 0
  else if (rs 1).status = 200 then 1
  else if (rs 2).status = 200 then 2
  else if (rs 3).status = 200 then 3
  else 4

/-- Number of `time.sleep(1)` calls the retry loop performs: one after every
non-200 attempt it executes (line 35). -/
def numSleeps (rs : Nat → Response) : Nat :=
  if (rs 0).status = 200 then 0
  else if (rs 1).status = 200 then 1
  else if (rs 2).status = 200 then 2
  else if (rs 3).status = 200 then 3
  else if (rs 4).status = 200 then 4
  else 5

/-- Lines 30-40.  After the retry loop, a non-200 final status is only
printed (lines 36-37), never raised; `ret = json.loads(resp.text)` parses the
final response body whatever its status, and the progress print on line 39
evaluates `ret[0]['number']` and `ret[-1]['number']`.  Subscripting an empty
list with 0 raises IndexError; subscripting a string-keyed dictionary with
the integer 0 raises KeyError.  Only a response whose body is a non-empty
list makes `get_prs` return. -/
def get_prs (rs : Nat → Response) : Except PyErr (List PRRecord) :=
  let resp := rs (finalAttemptIdx rs)
  match resp.body with
  | JsonVal.jlist [] => Except.error PyErr.indexError
  | JsonVal.jlist (x :: xs) => Except.ok (x :: xs)
  | JsonVal.jobject _ => Except.error PyErr.keyError

/-- Python `str(...)` of an optional timestamp: `None` prints as "None". -/
def pyOptStr (o : Option String) : String :=
  match o with
  | none => "None"
  | some s => s

/-- Lines 42-43.  `parse_pr` returns the f-string
number,user.login,state,created_at,closed_at: a plain comma-joined string
keeping exactly those five fields. -/
def parse_pr (pr : PRRecord) : String :=
  toString pr.number ++ "," ++ pr.user_login ++ "," ++ pr.state ++ ","
    ++ pr.created_at ++ "," ++ pyOptStr pr.closed_at

/-- Line 74 applied to the rows produced on line 66.  `prs` is a list of
strings (the `parse_pr` outputs), and the comprehension condition evaluates
`pr['merged_at']` on each element: subscripting a Python `str` with a string
key raises TypeError, so the comprehension raises at its first element. -/
def mergedFilter : List String → Except PyErr (List String)
  | [] => Except.ok []
  | _ :: _ => Except.error PyErr.typeError

/-- Lines 60-64 with the value returned by `get_prs` abstracted as the
per-page row list `f` (the spec's `fetchAllClosedPRs` view of the loop):
`for page in range(3)` appends `f page` to `resps` and breaks when the
accumulated `resps` — not the page just fetched — is empty.  Returns the
accumulated rows and the list of pages actually fetched. -/
def fetchStep (f : Nat → List PRRecord) (acc : List PRRecord) :
    List Nat → List PRRecord × List Nat
  | [] => (acc, [])
  | p :: rest =>
    let acc2 := acc ++ f p
    if acc2 = [] then (acc2, [p])
    else
      let next := fetchStep f acc2 rest
      (next.1, p :: next.2)

/-- The rows accumulated by the loop on lines 60-64. -/
def fetchClosedPrs (f : Nat → List PRRecord) : List PRRecord :=
  (fetchStep f [] [0, 1, 2]).1

/-- The pages the loop on lines 60-64 fetches, in fetch order. -/
def pagesFetched (f : Nat → List PRRecord) : List Nat :=
  (fetchStep f [] [0, 1, 2]).2

/-- Lines 60-64 composed with `get_prs` itself: `net p` is the network's
response to any attempt of page `p` (the network is held fixed per page).  An
error raised inside `get_prs` propagates out of the loop and aborts `main`,
so fetching stops at the raising page.  Returns the pages for which
`get_prs` was called, in order, and the loop's outcome. -/
def runFetch (net : Nat → Response) : List Nat × Except PyErr (List PRRecord) :=
  match get_prs (fun _ => net 0) with
  | Except.error e => ([0], Except.error e)
  | Except.ok l0 =>
    if l0 = [] then ([0], Except.ok l0)
    else
      match get_prs (fun _ => net 1) with
      | Except.error e => ([0, 1], Except.error e)
      | Except.ok l1 =>
        if l0 ++ l1 = [] then ([0, 1], Except.ok (l0 ++ l1))
        else
          match get_prs (fun _ => net 2) with
          | Except.error e => ([0, 1, 2], Except.error e)
          | Except.ok l2 => ([0, 1, 2], Except.ok (l0 ++ l1 ++ l2))

/-- A concrete merged PR record used in concrete evaluations. -/
def prMerged : PRRecord :=
  { number := 1, user_login := "alice", state := "closed",
    created_at := "2019-01-01T00:00:00Z", closed_at := some "2019-02-01T00:00:00Z",
    merged_at := some "2019-02-01T00:00:00Z", base_ref := "master" }

/-- `prMerged` with `merged_at` null: the same PR record, not merged. -/
def prUnmerged : PRRecord :=
  { prMerged with merged_at := none }

/-- Page function for the loop counterexample: page 0 has one record, every
later page is empty. -/
def pagesF : Nat → List PRRecord :=
  fun n => if n = 0 then [prMerged] else []

/-- A network that answers status 500 with a JSON error object on every
attempt of every page. -/
def rsFail : Nat → Response :=
  fun _ => { status := 500, body := JsonVal.jobject [("message", "Server Error")] }

/-- A network that answers status 200 with an empty JSON list. -/
def rsEmptyPage : Nat → Response :=
  fun _ => { status := 200, body := JsonVal.jlist [] }

/-- C1: `Github.request` drops the `options` argument, so the GET issued for
page p carries no query parameters at all: every page number yields the
identical request against the bare pulls endpoint, contradicting the claim
that `state=closed&per_page=100&page=p` is sent and distinct pages request
distinct results. -/
theorem c1_get_prs_request_ignores_page (g : Github) (p q : Nat) :
    getPrsRequest g p = getPrsRequest g q ∧
      (getPrsRequest g p).uri = "https://api.github.com/repos/bitcoin/bitcoin/pulls" := by
  constructor
  · rfl
  · rfl

/-- C2: `parse_pr` flattens a record to the five fields
number,user.login,state,created_at,closed_at, so two records that differ
only in `merged_at` normalize to the same string, and the merged-PR filter
on line 74, applied to these string rows, raises TypeError instead of
selecting the merged rows: the normalized row does not retain `merged_at`
or `base.ref`, and no `MalformedRecordError` exists. -/
theorem c2_parse_pr_drops_merge_fields :
    parse_pr prMerged = parse_pr prUnmerged ∧
      prMerged.merged_at ≠ prUnmerged.merged_at ∧
      mergedFilter [parse_pr prMerged] = Except.error PyErr.typeError := by
  refine ⟨rfl, by decide, rfl⟩

/-- C7: an empty first page is not a valid non-error result: with a 200
response whose body is the empty JSON list, the progress print on line 39
evaluates `ret[0]['number']` on the empty list and `get_prs` raises
IndexError, aborting the run instead of returning an empty sequence. -/
theorem c7_empty_first_page_raises :
    get_prs rsEmptyPage = Except.error PyErr.indexError ∧
      (runFetch rsEmptyPage).2 = Except.error PyErr.indexError := by
  exact ⟨rfl, rfl⟩

/-- C3 counterexample: when all 5 attempts answer 500 with a JSON error
object, `get_prs` raises KeyError from the progress print (line 39) —
no `ForgeRequestError` value exists anywhere in the program, nothing
empty is contributed to the accumulator, and the uncaught error aborts
the run instead of letting it continue. -/
theorem c3_exhausted_retries_raise_keyerror :
    get_prs rsFail = Except.error PyErr.keyError ∧
      get_prs rsFail ≠ Except.ok [] ∧
      (runFetch rsFail).2 = Except.error PyErr.keyError := by
  refine ⟨rfl, fun hcontra => Except.noConfusion hcontra, rfl⟩

/-- C3 amended: the loop makes 5 attempts (sleeping 1s after each failure,
5 sleeps in all); if every attempt returns non-200 the failure is only
printed, and `json.loads` is applied to the final failed response anyway —
for the JSON-object body GitHub sends on errors, the line-39 print then
raises KeyError, aborting the run; no error value is returned and no empty
page is contributed. -/
theorem c3_amended_all_attempts_fail (rs : Nat → Response) (kvs : List (String × String))
    (h1 : ∀ i, i < 5 → (rs i).status ≠ 200)
    (h2 : (rs 4).body = JsonVal.jobject kvs) :
    finalAttemptIdx rs = 4 ∧ numSleeps rs = 5 ∧
      get_prs rs = Except.error PyErr.keyError := by
  have e0 := h1 0 (by omega)
  have e1 := h1 1 (by omega)
  have e2 := h1 2 (by omega)
  have e3 := h1 3 (by omega)
  have e4 := h1 4 (by omega)
  have hidx : finalAttemptIdx rs = 4 := by
    simp [finalAttemptIdx, e0, e1, e2, e3]
  refine ⟨hidx, ?_, ?_⟩
  · simp [numSleeps, e0, e1, e2, e3, e4]
  · simp only [get_prs, hidx, h2]

/-- C3 amended, witnessed at the all-500 network: 5 attempts, 5 sleeps, and
a KeyError instead of an error value or an empty page. -/
theorem c3_amended_witness :
    finalAttemptIdx rsFail = 4 ∧ numSleeps rsFail = 5 ∧
      get_prs rsFail = Except.error PyErr.keyError :=
  c3_amended_all_attempts_fail rsFail [("message", "Server Error")]
    (fun i _ => by simp [rsFail]) rfl

/-- Characterization of the lines 60-64 loop: the break tests the
accumulated list, which grows monotonically, so the loop stops early
exactly when page 0 contributes nothing; otherwise all three pages are
fetched. -/
theorem fetchStep_pages_characterization (f : Nat → List PRRecord) :
    pagesFetched f = if f 0 = [] then [0] else [0, 1, 2] := by
  by_cases h0 : f 0 = []
  · simp [pagesFetched, fetchStep, h0]
  · have hne : ¬([] : List PRRecord) ++ f 0 = [] := by simpa using h0
    have hne1 : ¬(([] : List PRRecord) ++ f 0) ++ f 1 = [] := by simp [h0]
    simp only [pagesFetched, fetchStep, if_neg hne, if_neg hne1, h0, if_neg h0]
    split <;> simp [h0]

/-- C4 counterexample: with page 0 holding one record and page 1 empty, the
loop still fetches page 2, because the break on line 63 tests the
accumulated `resps`, not the page just fetched — so an empty page N does
not stop pages greater than N from being fetched. -/
theorem c4_empty_midrun_page_does_not_stop :
    pagesF 1 = [] ∧ 2 ∈ pagesFetched pagesF := by
  refine ⟨rfl, ?_⟩
  have h := fetchStep_pages_characterization pagesF
  have h0 : pagesF 0 = [prMerged] := rfl
  rw [h0] at h
  simp only [if_neg (by simp : ([prMerged] : List PRRecord) ≠ [])] at h
  rw [h]
  decide

/-- C4 amended: the loop's early exit fires only when the accumulated row
list is empty after a fetch, i.e. only when page 0 returns zero rows (then
only page 0 is fetched); any non-empty page 0 makes the loop fetch all of
pages 0, 1, 2 regardless of later pages being empty.  (In the composed
program an empty page never even reaches the break: `get_prs` raises
IndexError on it, line 39.) -/
theorem c4_amended_break_tests_accumulator (f : Nat → List PRRecord) :
    pagesFetched f = if f 0 = [] then [0] else [0, 1, 2] :=
  fetchStep_pages_characterization f

/-- C10: the fetch loop calls `get_prs` at most 3 times, for pages 0, 1, 2
in that order — `range(3)` is a hard-coded constant — whatever the network
returns; a run aborted by an exception only shortens the prefix. -/
theorem c10_at_most_three_pages (net : Nat → Response) :
    (runFetch net).1 = [0] ∨ (runFetch net).1 = [0, 1] ∨ (runFetch net).1 = [0, 1, 2] := by
  unfold runFetch
  rcases get_prs (fun _ => net 0) with e | l0
  · simp
  · by_cases h0 : l0 = []
    · simp [h0]
    · rcases get_prs (fun _ => net 1) with e | l1
      · simp [h0]
      · by_cases h1 : l0 ++ l1 = []
        · simp [h0, h1]
        · rcases get_prs (fun _ => net 2) with e | l2
          · simp [h0, h1]
          · simp [h0, h1]

/-- A local git repository as the subprocess calls of lines 84-113 see it.
Commits are numbered topologically: every parent of commit c has a smaller
number than c, and all commits are below `size`.  `refs` resolves a branch
name to a commit (`none` models a reference that does not exist), `head` is
the checkout's HEAD, `author` is the commit's %an author name and `subject`
its one-line log subject. -/
structure Repo where
  size : Nat
  head : Nat
  parents : Nat → List Nat
  author : Nat → String
  subject : Nat → String
  refs : String → Option Nat

/-- Commits reachable from c, walking parent lists with explicit fuel; since
parents have strictly smaller numbers than their children, `size` steps of
fuel always suffice. -/
def reachFuel (r : Repo) : Nat → Nat → List Nat
  | 0, c => [c]
  | fuel + 1, c => c :: (r.parents c).flatMap (fun p => reachFuel r fuel p)

/-- The set of commits reachable from c (with possible repeats from diamond
merges; consumers dedup). -/
def reach (r : Repo) (c : Nat) : List Nat :=
  reachFuel r r.size c

/-- `git merge-base a b`: the most recent — under topological numbering, the
highest-numbered — commit reachable from both a and b; `none` when the
histories are disjoint. -/
def mergeBase (r : Repo) (a b : Nat) : Option Nat :=
  (((reach r a).filter (fun c => (reach r b).contains c)).dedup).max?

/-- `git log prev..branch`: the commits reachable from branch but not from
prev, each listed once.  When either reference does not resolve, git writes
an error to stderr and nothing to stdout, so the pipelines built on this
output (`wc -l`, `grep`, `sort | uniq`) all see the empty list. -/
def logRange (r : Repo) (prev branch : String) : List Nat :=
  match r.refs prev, r.refs branch with
  | some p, some b => ((reach r b).dedup).filter (fun c => !(reach r p).contains c)
  | _, _ => []

/-- `git log {rev}` for the rev captured from `git merge-base` (line 102):
when merge-base failed its stdout was empty, the rev interpolates to the
empty string and `git log` falls back to HEAD. -/
def logFrom (r : Repo) (mb : Option Nat) : List Nat :=
  match mb with
  | some c => (reach r c).dedup
  | none => (reach r r.head).dedup

/-- The merge-base commit used on line 102: `git merge-base master {prev}`,
failing (empty stdout) when either reference does not resolve. -/
def mergeBaseRef (r : Repo) (prev : String) : Option Nat :=
  match r.refs "master", r.refs prev with
  | some m, some p => mergeBase r m p
  | _, _ => none

/-- `--no-merges`: a commit with at most one parent. -/
def nonMergeB (r : Repo) (c : Nat) : Bool :=
  decide ((r.parents c).length ≤ 1)

/-- Byte-wise ≤ on strings as `sort` compares lines, via the character
lists. -/
def strLeB : List Char → List Char → Bool
  | [], _ => true
  | _ :: _, [] => false
  | c :: cs, d :: ds =>
    if c.val < d.val then true
    else if d.val < c.val then false
    else strLeB cs ds

/-- Insert a line into an already sorted list of lines. -/
def insertLine (a : String) : List String → List String
  | [] => [a]
  | b :: rest => if strLeB a.data b.data then a :: b :: rest else b :: insertLine a rest

/-- `sort`: insertion sort of the output lines. -/
def sortLines : List String → List String
  | [] => []
  | x :: xs => insertLine x (sortLines xs)

/-- `sort | uniq`: sorted output with duplicate lines collapsed. -/
def sortUniq (l : List String) : List String :=
  (sortLines l).dedup

/-- Substring occurrence over character lists: pat occurs at the head or in
the tail. -/
def containsAux (p : List Char) : List Char → Bool
  | [] => p.isPrefixOf ([] : List Char)
  | c :: rest => p.isPrefixOf (c :: rest) || containsAux p rest

/-- `grep "pat"` on a single line: the line survives iff pat occurs in it as
a substring. -/
def strContains (s pat : String) : Bool :=
  containsAux pat.data s.data

/-- A merge subject the pipeline on line 95 counts: it contains "Merge #"
and does not contain the start of a revert of a merge. -/
def countedMergeSubject (s : String) : Bool :=
  strContains s "Merge #" && !strContains s "Revert \"Merge"

/-- Insert a counted line into a list sorted by count descending. -/
def insertTop (x : Nat × String) : List (Nat × String) → List (Nat × String)
  | [] => [x]
  | y :: rest => if y.1 ≤ x.1 then x :: y :: rest else y :: insertTop x rest

/-- `sort -n -r`: sort counted lines by count descending. -/
def sortTop : List (Nat × String) → List (Nat × String)
  | [] => []
  | x :: xs => insertTop x (sortTop xs)

/-- `sort | uniq -c | sort -n -r | head`-style top list (lines 110-111):
each distinct author paired with their commit count, ordered by count
descending, truncated to 10.  (Ties keep the sorted-author order; the exact
tie-break of `sort -n -r` is not relied on by any claim.) -/
def topCommitters (r : Repo) (prev branch : String) : List (Nat × String) :=
  let as := ((logRange r prev branch).filter (nonMergeB r)).map r.author
  let counted := (sortUniq as).map (fun a => ((as.filter (fun b => b = a)).length, a))
  (sortTop counted).take 10

/-- The per-release statistics the loop body (lines 84-113) computes and
prints for one config section. -/
structure ReleaseStats where
  commit_count : Nat
  merge_count : Nat
  author_count : Nat
  new_author_count : Nat
  top_committers : List (Nat × String)
  deriving DecidableEq

/-- Lines 84-113 for one release: commit count is `git log prev..branch
--oneline --no-merges | wc -l`; merge count greps the subjects in the same
range; the author set is `set()` of the sorted-uniq %an lines of the
non-merge range; the old-author set is the same over `git log {merge-base}`;
the new-author count is the size of the Python set difference; top
committers come from lines 110-111.  Every step is built from subprocess
stdout — no reference is ever checked for existence and no error is raised. -/
def analyzeRelease (r : Repo) (prev branch : String) : ReleaseStats :=
  let rangeC := logRange r prev branch
  let authorsList := sortUniq ((rangeC.filter (nonMergeB r)).map r.author)
  let authors := authorsList.toFinset
  let oldList := sortUniq (((logFrom r (mergeBaseRef r prev)).filter (nonMergeB r)).map r.author)
  let old_authors := oldList.toFinset
  { commit_count := (rangeC.filter (nonMergeB r)).length,
    merge_count := (rangeC.filter (fun c => countedMergeSubject (r.subject c))).length,
    author_count := authors.card,
    new_author_count := (authors \ old_authors).card,
    top_committers := topCommitters r prev branch }

/-- The orchestrator loop over config sections (line 84): one
`ReleaseStats` per configured release, in order; nothing stops the loop. -/
def releaseLoop (r : Repo) (rels : List (String × String)) : List ReleaseStats :=
  rels.map (fun pb => analyzeRelease r pb.1 pb.2)

/-- Spec formula for the new-author count (spec section 4.3, steps 3-6): the
cardinality of the set difference between the distinct non-merge commit
author names in prev..branch and the distinct non-merge commit author names
reachable from the merge-base commit, compared as exact strings. -/
def specNewAuthorCount (r : Repo) (prev branch : String) (mb : Nat) : Nat :=
  ((((logRange r prev branch).filter (nonMergeB r)).map r.author).toFinset \
    ((((reach r mb).dedup).filter (nonMergeB r)).map r.author).toFinset).card

/-- Membership in an insertion step of the line sort. -/
theorem mem_insertLine (a x : String) (l : List String) :
    x ∈ insertLine a l ↔ x = a ∨ x ∈ l := by
  induction l with
  | nil => simp [insertLine]
  | cons b rest ih =>
    simp only [insertLine]
    split
    · simp
    · simp only [List.mem_cons, ih]
      tauto

/-- Sorting the output lines does not change which lines occur. -/
theorem mem_sortLines (x : String) (l : List String) : x ∈ sortLines l ↔ x ∈ l := by
  induction l with
  | nil => simp [sortLines]
  | cons b rest ih => simp [sortLines, mem_insertLine, ih]

/-- Piping through `sort | uniq` before `set()` is harmless: the resulting
set of lines is the set of input lines. -/
theorem sortUniq_toFinset (l : List String) : (sortUniq l).toFinset = l.toFinset := by
  rw [List.toFinset.ext_iff]
  intro x
  simp [sortUniq, List.mem_dedup, mem_sortLines]

/-- A three-commit fixture repository: alice's root commit 0, bob's commit 1
on top of it, carol's commit 2 on top of that; master and the previous
release branch v1 point at commit 1, the release branch v2 at commit 2. -/
def fxRepo : Repo :=
  { size := 3, head := 2,
    parents := fun c => match c with | 1 => [0] | 2 => [1] | _ => [],
    author := fun c => match c with | 0 => "alice" | 1 => "bob" | _ => "carol",
    subject := fun c => match c with | 1 => "Merge #42: add feature" | _ => "regular commit",
    refs := fun s =>
      if s = "master" then some 1
      else if s = "v1" then some 1
      else if s = "v2" then some 2
      else none }

/-- C5 counterexample: for the unresolvable reference "nosuch" the analysis
does not fail — no `UnresolvedReferenceError` exists anywhere in the
program — it produces a fully-formed zero-valued stats record from the
empty subprocess output, and the orchestrator keeps going (here: both
configured releases yield a record). -/
theorem c5_unresolved_ref_yields_record :
    analyzeRelease fxRepo "nosuch" "v2" =
      { commit_count := 0, merge_count := 0, author_count := 0,
        new_author_count := 0, top_committers := [] } ∧
      (releaseLoop fxRepo [("nosuch", "v2"), ("v1", "v2")]).length = 2 := by
  constructor
  · decide
  · rfl

/-- C5 amended: a release whose previous or current branch reference does
not resolve raises nothing; the failed git subprocesses leave empty stdout,
so the release gets a record with zero commits, zero merges, zero authors,
zero new authors and an empty top-committer list, and the orchestrator
proceeds with the remaining releases unchanged. -/
theorem c5_amended_silent_zero_record (r : Repo) (prev branch : String)
    (rest : List (String × String))
    (h : r.refs prev = none ∨ r.refs branch = none) :
    analyzeRelease r prev branch =
      { commit_count := 0, merge_count := 0, author_count := 0,
        new_author_count := 0, top_committers := [] } ∧
      releaseLoop r ((prev, branch) :: rest) =
        analyzeRelease r prev branch :: releaseLoop r rest := by
  have hrange : logRange r prev branch = [] := by
    unfold logRange
    cases hp : r.refs prev <;> cases hb : r.refs branch <;> simp_all
  constructor
  · unfold analyzeRelease topCommitters
    rw [hrange]
    simp [sortUniq, sortLines, sortTop, Finset.empty_sdiff]
  · rfl

/-- C5 amended, witnessed on the fixture with the bad reference "nosuch". -/
theorem c5_amended_witness :
    analyzeRelease fxRepo "nosuch" "v2" =
      { commit_count := 0, merge_count := 0, author_count := 0,
        new_author_count := 0, top_committers := [] } ∧
      releaseLoop fxRepo [("nosuch", "v2"), ("v1", "v2")] =
        analyzeRelease fxRepo "nosuch" "v2" :: releaseLoop fxRepo [("v1", "v2")] :=
  c5_amended_silent_zero_record fxRepo "nosuch" "v2" [("v1", "v2")] (Or.inl (by decide))

/-- C8: whenever `git merge-base master prev` yields a commit, the computed
new-author count equals the spec formula — the cardinality of the set
difference between the distinct non-merge author names of prev..branch and
the distinct non-merge author names reachable from that merge-base, under
exact string equality.  The `sort | uniq` pipelines commute with taking the
set of lines. -/
theorem c8_new_author_count_matches_spec (r : Repo) (prev branch : String) (mb : Nat)
    (h : mergeBaseRef r prev = some mb) :
    (analyzeRelease r prev branch).new_author_count = specNewAuthorCount r prev branch mb := by
  simp only [analyzeRelease, specNewAuthorCount, h, logFrom, sortUniq_toFinset]

/-- C8 witnessed on the fixture: carol authored only in v1..v2, so the
new-author count is 1 and matches the spec formula at merge-base commit 1. -/
theorem c8_witness :
    mergeBaseRef fxRepo "v1" = some 1 ∧
      (analyzeRelease fxRepo "v1" "v2").new_author_count =
        specNewAuthorCount fxRepo "v1" "v2" 1 ∧
      specNewAuthorCount fxRepo "v1" "v2" 1 = 1 :=
  ⟨by decide, c8_new_author_count_matches_spec fxRepo "v1" "v2" 1 (by decide), by decide⟩

/-- A comment record as the tally loop reads it: only `comment['user']`
matters, which is either null (deleted account) or an object whose `login`
is kept. -/
structure Comment where
  user : Option String
  deriving DecidableEq

/-- `contributors[login] += 1` on the defaultdict (lines 123 and 130): the
count of `login` grows by one, all other counts are unchanged. -/
def bump (acc : String → Nat) (login : String) : String → Nat :=
  fun s => if s = login then acc s + 1 else acc s

/-- Lines 122-123: the issue-comment loop dereferences
`comment['user']['login']` unconditionally, so a null user raises TypeError
(`NoneType` is not subscriptable); otherwise the author's count is bumped. -/
def tallyIssueComments : List Comment → (String → Nat) → Except PyErr (String → Nat)
  | [], acc => Except.ok acc
  | c :: rest, acc =>
    match c.user with
    | none => Except.error PyErr.typeError
    | some login => tallyIssueComments rest (bump acc login)

/-- Lines 128-130: the review-comment loop guards with
`if comment['user'] is not None`, so a null user is skipped and never
raises. -/
def tallyReviewComments : List Comment → (String → Nat) → (String → Nat)
  | [], acc => acc
  | c :: rest, acc =>
    match c.user with
    | none => tallyReviewComments rest acc
    | some login => tallyReviewComments rest (bump acc login)

/-- The two comment lists fetched for one PR number (lines 118-119). -/
structure PRComments where
  issue : List Comment
  review : List Comment

/-- The body of the `for pr in pulls` loop (lines 115-132) for one PR:
first the issue comments, then the review comments.  (The `if pr_comments:`
guards only change what is printed — an empty list skips its loop either
way.) -/
def processPR (cs : Nat → PRComments) (acc : String → Nat) (pr : Nat) :
    Except PyErr (String → Nat) :=
  match tallyIssueComments (cs pr).issue acc with
  | Except.error e => Except.error e
  | Except.ok acc2 => Except.ok (tallyReviewComments (cs pr).review acc2)

/-- The whole tally loop over the PR list, starting from a given
accumulator; an uncaught TypeError aborts it. -/
def tallyAll (cs : Nat → PRComments) : List Nat → (String → Nat) → Except PyErr (String → Nat)
  | [], acc => Except.ok acc
  | pr :: rest, acc =>
    match processPR cs acc pr with
    | Except.error e => Except.error e
    | Except.ok acc2 => tallyAll cs rest acc2

/-- The empty defaultdict(int) the loop starts from (line 77). -/
def zeroTally : String → Nat := fun _ => 0

/-- Whether some comment in the list has a null user. -/
def hasNullUser (l : List Comment) : Bool :=
  l.any (fun c => c.user.isNone)

/-- How many comments in the list are authored by s. -/
def commentCount (l : List Comment) (s : String) : Nat :=
  (l.filter (fun c => decide (c.user = some s))).length

/-- Counting step for a comment with a known non-null author. -/
theorem commentCount_cons_some (c : Comment) (rest : List Comment) (s login : String)
    (hc : c.user = some login) :
    commentCount (c :: rest) s = (if s = login then 1 else 0) + commentCount rest s := by
  simp only [commentCount, List.filter_cons, hc]
  by_cases hs : s = login
  · subst hs
    simp
    omega
  · have : ¬(some login = some s) := by
      intro hcontra
      exact hs (Option.some.inj hcontra).symm
    simp [hs, this]

/-- Counting step for a comment with a null author: it counts for nobody. -/
theorem commentCount_cons_none (c : Comment) (rest : List Comment) (s : String)
    (hc : c.user = none) :
    commentCount (c :: rest) s = commentCount rest s := by
  simp [commentCount, List.filter_cons, hc]

/-- What the issue-comment loop computes: a TypeError as soon as the list
holds a null user, otherwise each author's count grows by their number of
comments. -/
theorem tallyIssue_characterization (l : List Comment) :
    ∀ acc, tallyIssueComments l acc =
      if hasNullUser l then Except.error PyErr.typeError
      else Except.ok (fun s => acc s + commentCount l s) := by
  induction l with
  | nil =>
    intro acc
    simp [tallyIssueComments, hasNullUser, commentCount]
  | cons c rest ih =>
    intro acc
    cases hc : c.user with
    | none => simp [tallyIssueComments, hasNullUser, hc]
    | some login =>
      have hnull : hasNullUser (c :: rest) = hasNullUser rest := by
        simp [hasNullUser, hc]
      simp only [tallyIssueComments, hc, hnull]
      rw [ih]
      by_cases hr : hasNullUser rest
      · simp [hr]
      · simp only [hr, Bool.false_eq_true, if_false, Except.ok.injEq]
        funext s
        rw [commentCount_cons_some c rest s login hc]
        simp only [bump]
        by_cases hs : s = login <;> simp [hs] <;> omega

/-- What the review-comment loop computes: null users are skipped, each
non-null author's count grows by their number of comments, and no error is
possible. -/
theorem tallyReview_characterization (l : List Comment) :
    ∀ acc, tallyReviewComments l acc = fun s => acc s + commentCount l s := by
  induction l with
  | nil =>
    intro acc
    funext s
    simp [tallyReviewComments, commentCount]
  | cons c rest ih =>
    intro acc
    cases hc : c.user with
    | none =>
      simp only [tallyReviewComments, hc]
      rw [ih]
      funext s
      rw [commentCount_cons_none c rest s hc]
    | some login =>
      simp only [tallyReviewComments, hc]
      rw [ih]
      funext s
      rw [commentCount_cons_some c rest s login hc]
      simp only [bump]
      by_cases hs : s = login <;> simp [hs] <;> omega

/-- How one PR moves the tally: the count each author gains from one PR's
comments of both kinds. -/
def prDelta (cs : Nat → PRComments) (pr : Nat) (s : String) : Nat :=
  commentCount (cs pr).issue s + commentCount (cs pr).review s

/-- One loop iteration either raises on a null issue-comment user or adds
the PR's per-author comment counts to the accumulator. -/
theorem processPR_characterization (cs : Nat → PRComments) (pr : Nat) (acc : String → Nat) :
    processPR cs acc pr =
      if hasNullUser (cs pr).issue then Except.error PyErr.typeError
      else Except.ok (fun s => acc s + prDelta cs pr s) := by
  unfold processPR
  rw [tallyIssue_characterization]
  by_cases h : hasNullUser (cs pr).issue
  · simp [h]
  · simp only [h, Bool.false_eq_true, if_false, Except.ok.injEq]
    rw [tallyReview_characterization]
    funext s
    simp only [prDelta]
    omega

/-- Whether some PR in the list has an issue comment with a null user. -/
def anyNullIssue (cs : Nat → PRComments) (l : List Nat) : Bool :=
  l.any (fun pr => hasNullUser (cs pr).issue)

/-- The whole tally loop either raises (when any listed PR has a
null-authored issue comment) or adds, per author, the sum over the list of
that author's per-PR comment counts. -/
theorem tallyAll_characterization (cs : Nat → PRComments) (l : List Nat) :
    ∀ acc, tallyAll cs l acc =
      if anyNullIssue cs l then Except.error PyErr.typeError
      else Except.ok (fun s => acc s + (l.map (fun pr => prDelta cs pr s)).sum) := by
  induction l with
  | nil =>
    intro acc
    simp [tallyAll, anyNullIssue]
  | cons pr rest ih =>
    intro acc
    simp only [tallyAll]
    rw [processPR_characterization]
    by_cases h : hasNullUser (cs pr).issue
    · simp [h, anyNullIssue]
    · have hany : anyNullIssue cs (pr :: rest) = anyNullIssue cs rest := by
        simp [anyNullIssue, h]
      simp only [h, Bool.false_eq_true, if_false, hany]
      rw [ih]
      by_cases h2 : anyNullIssue cs rest
      · simp [h2]
      · simp only [h2, Bool.false_eq_true, if_false, Except.ok.injEq]
        funext s
        simp only [List.map_cons, List.sum_cons]
        omega

/-- A permutation of a list leaves `List.any` unchanged. -/
theorem perm_any_eq {α : Type} {l l2 : List α} (p : α → Bool) (h : l.Perm l2) :
    l.any p = l2.any p := by
  induction h with
  | nil => rfl
  | cons x _ ih => simp [ih]
  | swap x y l => simp [Bool.or_left_comm]
  | trans _ _ ih1 ih2 => rw [ih1, ih2]

/-- Comment data with one null-authored issue comment on every PR. -/
def csNull : Nat → PRComments :=
  fun _ => { issue := [{ user := none }], review := [] }

/-- Comment data for the order-invariance witness: PR 1 has one issue
comment by alice; PR 2 has review comments by bob and by a deleted (null)
account. -/
def csFixture : Nat → PRComments :=
  fun pr =>
    if pr = 1 then { issue := [{ user := some "alice" }], review := [] }
    else if pr = 2 then
      { issue := [], review := [{ user := some "bob" }, { user := none }] }
    else { issue := [], review := [] }

/-- C6 counterexample: a null-authored issue comment is not skipped — the
loop on lines 122-123 subscripts the null user and raises TypeError, so the
claimed uniform null-skipping fails for issue comments. -/
theorem c6_null_issue_comment_raises :
    processPR csNull zeroTally 1 = Except.error PyErr.typeError := rfl

/-- C6 amended: only the review-comment loop (line 129) guards against a
null user and skips such comments without touching any count; the
issue-comment loop dereferences the author unconditionally, so a
null-authored issue comment raises TypeError and aborts the run. -/
theorem c6_amended_null_skipped_only_in_reviews (c : Comment) (h : c.user = none)
    (rest : List Comment) (acc : String → Nat) :
    tallyIssueComments (c :: rest) acc = Except.error PyErr.typeError ∧
      tallyReviewComments (c :: rest) acc = tallyReviewComments rest acc := by
  constructor
  · simp [tallyIssueComments, h]
  · simp [tallyReviewComments, h]

/-- C6 amended, witnessed on a single null-authored comment over the empty
tally. -/
theorem c6_amended_witness :
    tallyIssueComments ({ user := none } :: []) zeroTally = Except.error PyErr.typeError ∧
      tallyReviewComments ({ user := none } :: []) zeroTally =
        tallyReviewComments [] zeroTally :=
  c6_amended_null_skipped_only_in_reviews { user := none } rfl [] zeroTally

/-- C9: the contributor tally is order-independent — permuting the PR list
yields the same outcome, both on the success path (the final mapping is a
per-author sum over the list) and on the error path (a TypeError is raised
exactly when some listed PR has a null-authored issue comment, whatever the
order). -/
theorem c9_tally_order_invariant (cs : Nat → PRComments) (l l2 : List Nat)
    (h : l.Perm l2) :
    tallyAll cs l zeroTally = tallyAll cs l2 zeroTally := by
  rw [tallyAll_characterization, tallyAll_characterization]
  have hany : anyNullIssue cs l = anyNullIssue cs l2 :=
    perm_any_eq (fun pr => hasNullUser (cs pr).issue) h
  rw [hany]
  by_cases h2 : anyNullIssue cs l2
  · simp [h2]
  · simp only [h2, Bool.false_eq_true, if_false, Except.ok.injEq]
    funext s
    rw [(h.map (fun pr => prDelta cs pr s)).sum_eq]

/-- C9 witnessed on the two-PR fixture in both orders. -/
theorem c9_witness :
    tallyAll csFixture [1, 2] zeroTally = tallyAll csFixture [2, 1] zeroTally :=
  c9_tally_order_invariant csFixture [1, 2] [2, 1] (List.Perm.swap 2 1 [])
